import Mathlib

/-!
Shallow embedding of the webtop cloud-browser backend control plane
(container pool, session manager, admission queue, realtime gateway,
admin controller) and proofs about its specified properties.

Sources embedded:
- `ContainerService` (container/container.service.ts): pool of sandboxed
  browser containers with statuses booting/warm/active/destroying.
- `SessionService` (session/session.service.ts): session lifecycle,
  rate limiting, URL filtering, rolling duration window.
- `QueueService` (queue/queue.service.ts): FIFO admission queue with
  per-IP coalescing and a background worker.
- `SessionGateway` (session/session.gateway.ts, the variant with
  viewer roles and the 35s reconnect grace map).
- `SessionController`, `QueueController`, `AdminController`.

JavaScript `Map`s are modelled as association lists (insertion order
preserved, `set` replaces in place, `delete` removes the key).  Calls to
external collaborators that only produce effects (SQLite log writes,
docker exec, websocket emissions) are modelled as emitted event lists.
Milliseconds are `Nat`; fractional second arithmetic is `ℚ`.
-/

namespace Webtop

/-! ### Association-list model of JavaScript `Map` -/

def alookup {α : Type} (l : List (String × α)) (k : String) : Option α :=
  (l.find? (fun p => p.1 = k)).map (fun p => p.2)

def aupsert {α : Type} : List (String × α) → String → α → List (String × α)
  | [], k, v => [(k, v)]
  | p :: t, k, v => if p.1 = k then (k, v) :: t else p :: aupsert t k v

def aerase {α : Type} (l : List (String × α)) (k : String) : List (String × α) :=
  l.filter (fun p => p.1 ≠ k)

/-! ### JavaScript string primitives (ASCII fragment, structural recursion) -/

def asciiLower (c : Char) : Char :=
  if 'A' ≤ c ∧ c ≤ 'Z' then Char.ofNat (c.toNat + 32) else c

/-- Model of `url.toLowerCase()` on the ASCII fragment relevant to URL schemes. -/
def jsToLowerCase (s : String) : String := ⟨s.data.map asciiLower⟩

def isJsSpace (c : Char) : Bool := c = ' ' || c = '\t' || c = '\n' || c = '\r'

/-- Model of `s.trim()`. -/
def jsTrim (s : String) : String :=
  ⟨((s.data.dropWhile isJsSpace).reverse.dropWhile isJsSpace).reverse⟩

/-- Model of `s.startsWith(p)`. -/
def jsStartsWith (s p : String) : Bool := p.data.isPrefixOf s.data

def charsInclude (l sub : List Char) : Bool :=
  match l with
  | [] => sub.isEmpty
  | _ :: t => sub.isPrefixOf l || charsInclude t sub

/-- Model of `s.includes(sub)`. -/
def jsIncludes (s sub : String) : Bool := charsInclude s.data sub.data

def splitOnChar (sep : Char) : List Char → List (List Char)
  | [] => [[]]
  | c :: t =>
    let r := splitOnChar sep t
    if c = sep then [] :: r
    else
      match r with
      | [] => [[c]]
      | h :: t2 => (c :: h) :: t2

/-! ### Container pool (`ContainerService`) -/

inductive ContainerStatus where
  | booting
  | warm
  | active
  | destroying
deriving DecidableEq, Repr

structure PooledContainer where
  id : String
  containerId : String
  port : Nat
  status : ContainerStatus
  sessionId : Option String
deriving DecidableEq, Repr

structure PoolState where
  pool : List PooledContainer
  usedPorts : List Nat
deriving DecidableEq, Repr

def emptyPool : PoolState := { pool := [], usedPorts := [] }

def portRangeStart : Nat := 4000
def portRangeEnd : Nat := 4100

/-- Model of `getAvailablePort`: lowest free port in the configured range (the
source throws when none is free; here `none`). -/
def getAvailablePort (ps : PoolState) : Option Nat :=
  (List.range (portRangeEnd + 1 - portRangeStart)).findSome? (fun i =>
    let p := portRangeStart + i
    if p ∈ ps.usedPorts then none else some p)

/-- Model of `createWarmContainer` up to the point where the container has been
registered in the pool as `booting` (the readiness probe that later flips
it to `warm` is `containerReady`).  `id` and `containerId` stand for the
fresh uuid slice and the docker-assigned id.  When no port is free the
source throws and nothing is registered. -/
def createWarmContainer (ps : PoolState) (id containerId : String) : PoolState :=
  match getAvailablePort ps with
  | none => ps
  | some port =>
    { pool := ps.pool ++
        [ { id := id, containerId := containerId, port := port,
            status := .booting, sessionId := none : PooledContainer } ],
      usedPorts := ps.usedPorts ++ [port] }

/-- The `waitForReady(port).then(...)` callback: flip `booting → warm`
for the probed container (a no-op if it is no longer `booting` or has
left the pool). -/
def containerReady (ps : PoolState) (pid : String) : PoolState :=
  { ps with pool := ps.pool.map (fun c =>
      if c.id = pid ∧ c.status = .booting then { c with status := .warm } else c) }

def acquireGo (sid : String) : List PooledContainer → List PooledContainer × Option PooledContainer
  | [] => ([], none)
  | c :: t =>
    if c.status = .warm then
      let c2 := { c with status := .active, sessionId := some sid }
      (c2 :: t, some c2)
    else
      let (t2, r) := acquireGo sid t
      (c :: t2, r)

/-- Model of `acquireContainer`: linear scan for the first `warm` container, flip
it to `active` and record the session id; `none` when nothing is warm. -/
def acquireContainer (ps : PoolState) (sid : String) : PoolState × Option PooledContainer :=
  let (pool2, r) := acquireGo sid ps.pool
  ({ ps with pool := pool2 }, r)

/-- First half of `releaseContainer`: mark the container `destroying`.
The container stays in the pool (with its `sessionId` untouched) while
the asynchronous docker stop/remove runs. -/
def releaseContainerMark (ps : PoolState) (poolId : String) : PoolState :=
  match ps.pool.find? (fun c => c.id = poolId) with
  | none => ps
  | some _ =>
    { ps with pool := ps.pool.map (fun c =>
        if c.id = poolId then { c with status := .destroying } else c) }

/-- Second half of `releaseContainer`: after the docker stop/remove the
port is released and the container leaves the registry. -/
def releaseContainerFinish (ps : PoolState) (poolId : String) : PoolState :=
  match ps.pool.find? (fun c => c.id = poolId) with
  | none => ps
  | some c =>
    { pool := ps.pool.filter (fun d => d.id ≠ poolId),
      usedPorts := ps.usedPorts.erase c.port }

/-- The whole of `releaseContainer` (the replacement `createWarmContainer`
it kicks off runs as its own step). -/
def releaseContainer (ps : PoolState) (poolId : String) : PoolState :=
  releaseContainerFinish (releaseContainerMark ps poolId) poolId

/-- One unhealthy container being recycled by `healthCheck` (inspect not
running / inspect failed): remove it from the registry and release its
port; `destroying` containers are skipped. -/
def healthRemove (ps : PoolState) (pid : String) : PoolState :=
  match ps.pool.find? (fun c => c.id = pid) with
  | none => ps
  | some c =>
    if c.status = .destroying then ps
    else
      { pool := ps.pool.filter (fun d => d.id ≠ pid),
        usedPorts := ps.usedPorts.erase c.port }

/-- The destroy phase of `restartPool`: every `warm` container is removed
and its port released (`active` containers are never touched); the pool
is then refilled by `createWarmContainer` steps. -/
def restartRemoveWarm (ps : PoolState) : PoolState :=
  { pool := ps.pool.filter (fun c => c.status ≠ .warm),
    usedPorts := (ps.pool.filter (fun c => c.status = .warm)).foldl
      (fun u c => u.erase c.port) ps.usedPorts }

def getWarmCount (ps : PoolState) : Nat :=
  (ps.pool.filter (fun c => c.status = .warm)).length

/-! ### Session manager (`SessionService`) -/

inductive SessionStatus where
  | active
  | ended
  | expired
deriving DecidableEq, Repr

structure Session where
  id : String
  poolId : String
  port : Nat
  url : String
  clientIp : String
  startedAt : Nat
  expiresAt : Nat
  status : SessionStatus
deriving DecidableEq, Repr

/-- Effectful calls `SessionService` makes on its collaborators
(SQLite logging sink, `ContainerService`). -/
inductive SvcEffect where
  | logStart (sessionId url clientIp : String)
  | logEnd (sessionId reason : String)
  | releaseContainer (poolId : String)
  | launchChrome (containerId url : String)
deriving DecidableEq, Repr

structure SvcState where
  sessions : List Session
  ipSessionCount : List (String × Nat)
  sessionDuration : Nat
  rateLimitPerDay : Nat
  sessionDurations : List ℚ
  paused : Bool
  blockedIps : List String
  whitelistedIps : List String
  sessionsToday : Nat
  peakConcurrent : Nat
  lastResetDate : String
deriving DecidableEq, Repr

def initSvc : SvcState :=
  { sessions := [], ipSessionCount := [], sessionDuration := 300,
    rateLimitPerDay := 10, sessionDurations := [], paused := false,
    blockedIps := [], whitelistedIps := [], sessionsToday := 0,
    peakConcurrent := 0, lastResetDate := "day0" }

/-- Model of `getAnonymizedIp`: mask the last IPv4 octet, else the last hextet. -/
def getAnonymizedIp (ip : String) : String :=
  let parts := splitOnChar '.' ip.data
  if parts.length = 4 then
    ⟨List.intercalate ['.'] (parts.take 3) ++ ['.', 'x']⟩
  else
    let r := ip.data.reverse
    let seg := r.takeWhile (fun c => c ≠ ':')
    if seg.isEmpty || seg.length = r.length then ip
    else ⟨(r.drop seg.length).reverse ++ ['x', 'x', 'x', 'x']⟩

/-- Model of `resetDailyStats`, parametrised by the current calendar date. -/
def resetDailyStats (sv : SvcState) (today : String) : SvcState :=
  if sv.lastResetDate ≠ today then
    { sv with
      sessionsToday := 0, peakConcurrent := 0,
      ipSessionCount := [], lastResetDate := today }
  else sv

def getActiveSessions (sv : SvcState) : List Session :=
  sv.sessions.filter (fun s => s.status = .active)

def updatePeakConcurrent (sv : SvcState) : SvcState :=
  let activeCount := (getActiveSessions sv).length
  if activeCount > sv.peakConcurrent then { sv with peakConcurrent := activeCount } else sv

structure RateLimitInfo where
  allowed : Bool
  remaining : Nat
  blocked : Bool
deriving DecidableEq, Repr

/-- Model of `checkRateLimit`. -/
def checkRateLimit (sv : SvcState) (clientIp today : String) : SvcState × RateLimitInfo :=
  let sv := resetDailyStats sv today
  if clientIp ∈ sv.blockedIps then (sv, ⟨false, 0, true⟩)
  else if clientIp ∈ sv.whitelistedIps then (sv, ⟨true, sv.rateLimitPerDay, false⟩)
  else
    let count := (alookup sv.ipSessionCount clientIp).getD 0
    (sv, ⟨decide (count < sv.rateLimitPerDay), sv.rateLimitPerDay - count, false⟩)

def blockedProtocols : List String := ["file:", "javascript:", "data:", "chrome:", "about:"]

/-- The dangerous-scheme scan in `createSession`: the first blocked
protocol that `url.toLowerCase().trim()` starts with. -/
def findBlockedProtocol (url : String) : Option String :=
  blockedProtocols.find? (fun p => jsStartsWith (jsTrim (jsToLowerCase url)) p)

/-- The URL normalisation in `createSession` (`encode` stands for the
runtime's `encodeURIComponent`). -/
def normalizeUrl (encode : String → String) (url : String) : String :=
  let finalUrl := jsTrim url
  if jsStartsWith (jsToLowerCase finalUrl) "http://" ||
     jsStartsWith (jsToLowerCase finalUrl) "https://" then finalUrl
  else if jsIncludes finalUrl "." && !(jsIncludes finalUrl " ") then
    "https://" ++ finalUrl
  else
    "https://www.google.com/search?q=" ++ encode finalUrl

inductive CreateOutcome where
  | session (s : Session)
  | queued
  | error (msg : String)
deriving DecidableEq, Repr

/-- Model of `SessionService.createSession`.  `acqId` and `newSid` stand for the
two fresh uuids the source draws; `today` is the current calendar date;
`now` is `Date.now()` in milliseconds. -/
def svcCreateSession (sv : SvcState) (ps : PoolState) (url clientIp acqId newSid : String)
    (now : Nat) (today : String) (encode : String → String) :
    SvcState × PoolState × CreateOutcome × List SvcEffect :=
  let sv := resetDailyStats sv today
  match findBlockedProtocol url with
  | some p => (sv, ps, .error ("Blocked protocol: " ++ p), [])
  | none =>
    let finalUrl := normalizeUrl encode url
    match acquireContainer ps acqId with
    | (ps2, none) => (sv, ps2, .queued, [])
    | (ps2, some c) =>
      let sess : Session :=
        { id := newSid, poolId := c.id, port := c.port, url := finalUrl,
          clientIp := getAnonymizedIp clientIp, startedAt := now,
          expiresAt := now + sv.sessionDuration * 1000, status := .active }
      let sv := { sv with
        sessions := sv.sessions ++ [sess],
        ipSessionCount := aupsert sv.ipSessionCount clientIp
          ((alookup sv.ipSessionCount clientIp).getD 0 + 1),
        sessionsToday := sv.sessionsToday + 1 }
      let sv := updatePeakConcurrent sv
      (sv, ps2, .session sess,
        [.logStart newSid finalUrl sess.clientIp, .launchChrome c.containerId finalUrl])

def getSession (sv : SvcState) (sid : String) : Option Session :=
  sv.sessions.find? (fun s => s.id = sid)

/-- The `if (this.sessionDurations.length > 20) shift()` rolling window. -/
def pushDuration (w : List ℚ) (d : ℚ) : List ℚ :=
  let w2 := w ++ [d]
  if w2.length > 20 then w2.drop 1 else w2

/-- Model of `SessionService.endSession`.  Returns the updated state, the boolean
result, and the effects fired (end-log write, `releaseContainer` call). -/
def endSession (sv : SvcState) (sid reason : String) (now : Nat) :
    SvcState × Bool × List SvcEffect :=
  match getSession sv sid with
  | none => (sv, false, [])
  | some sess =>
    let d : ℚ := ((now : ℚ) - (sess.startedAt : ℚ)) / 1000
    let sv := { sv with
      sessions := sv.sessions.map (fun s => if s.id = sid then { s with status := .ended } else s),
      sessionDurations := pushDuration sv.sessionDurations d }
    (sv, true, [.logEnd sid reason, .releaseContainer sess.poolId])

/-- Model of `getSessionTimeRemaining` (`Math.max(0, Math.floor((expiresAt - now)/1000))`). -/
def getSessionTimeRemaining (sv : SvcState) (sid : String) (now : Nat) : Nat :=
  match getSession sv sid with
  | none => 0
  | some sess =>
    if sess.status = .active then (sess.expiresAt - now) / 1000 else 0

/-- Model of `getAvgSessionDuration`: mean of the rolling window, falling back to
the configured duration while the window is empty. -/
def getAvgSessionDuration (sv : SvcState) : ℚ :=
  if sv.sessionDurations.isEmpty then (sv.sessionDuration : ℚ)
  else sv.sessionDurations.sum / (sv.sessionDurations.length : ℚ)

/-! ### Admission queue (`QueueService`) -/

inductive QueueStatus where
  | waiting
  | preparing
  | connecting
  | ready
  | rate_limited
deriving DecidableEq, Repr

structure QueueEntry where
  id : String
  url : String
  clientIp : String
  position : Nat
  status : QueueStatus
  sessionId : Option String
  port : Option Nat
  createdAt : Nat
deriving DecidableEq, Repr

/-- Model of `QueueService` state.  `queue` holds the ids of the entry objects in
the FIFO array (the objects themselves live in `entries`, mirroring the
shared mutable objects of the source); `callbacks` are the ids with a
registered `onUpdate` subscriber. -/
structure QueueState where
  queue : List String
  entries : List QueueEntry
  ipQueueMap : List (String × String)
  callbacks : List String
deriving DecidableEq, Repr

def emptyQueue : QueueState :=
  { queue := [], entries := [], ipQueueMap := [], callbacks := [] }

def findEntry (st : QueueState) (qid : String) : Option QueueEntry :=
  st.entries.find? (fun e => e.id = qid)

/-- Write back a mutated entry object into the store. -/
def setEntry (st : QueueState) (e : QueueEntry) : QueueState :=
  { st with entries := st.entries.map (fun t => if t.id = e.id then e else t) }

/-- Model of `updatePositions`: every entry sitting in the queue array at index
`i` gets `position := i + 1`; entries no longer in the array keep their
last position. -/
def updatePositions (st : QueueState) : QueueState :=
  { st with entries := st.entries.map (fun e =>
      match st.queue.findIdx? (fun qid => qid = e.id) with
      | some i => { e with position := i + 1 }
      | none => e) }

/-- The non-coalescing tail of `addToQueue`: append a fresh `waiting`
entry at the back and record the IP mapping. -/
def addToQueueFresh (st : QueueState) (url clientIp newId : String) (now : Nat) :
    QueueState × QueueEntry :=
  let entry : QueueEntry :=
    { id := newId, url := url, clientIp := clientIp,
      position := st.queue.length + 1, status := .waiting,
      sessionId := none, port := none, createdAt := now }
  ({ st with
      queue := st.queue ++ [newId],
      entries := st.entries ++ [entry],
      ipQueueMap := aupsert st.ipQueueMap clientIp newId },
   entry)

/-- Model of `addToQueue` (`newId` stands for the fresh uuid): reuse the waiting
entry mapped from this IP if one exists (updating its URL), cleaning up a
stale mapping otherwise, else append a fresh entry. -/
def addToQueue (st : QueueState) (url clientIp newId : String) (now : Nat) :
    QueueState × QueueEntry :=
  match alookup st.ipQueueMap clientIp with
  | some existingId =>
    match findEntry st existingId with
    | some existing =>
      if existing.status = .waiting then
        let e2 := { existing with url := url }
        (setEntry st e2, e2)
      else
        addToQueueFresh { st with ipQueueMap := aerase st.ipQueueMap clientIp } url clientIp newId now
    | none =>
      addToQueueFresh { st with ipQueueMap := aerase st.ipQueueMap clientIp } url clientIp newId now
  | none => addToQueueFresh st url clientIp newId now

/-- Model of `getQueueEntry`: recompute `position` from the live queue index for
`waiting` entries (0 when a waiting entry is not in the array); other
entries are returned as stored. -/
def getQueueEntry (st : QueueState) (qid : String) : QueueState × Option QueueEntry :=
  match findEntry st qid with
  | none => (st, none)
  | some e =>
    if e.status = .waiting then
      let pos := match st.queue.findIdx? (fun q => q = qid) with
        | some i => i + 1
        | none => 0
      let e2 := { e with position := pos }
      (setEntry st e2, some e2)
    else (st, some e)

/-- Model of `removeFromQueue`: splice the entry out of the queue array (if
present), reindex, drop the IP mapping, the entry and the callback.
The source returns `true` unconditionally. -/
def removeFromQueue (st : QueueState) (qid : String) : QueueState × Bool :=
  let entryOpt := findEntry st qid
  let st := match st.queue.findIdx? (fun q => q = qid) with
    | some _ => updatePositions { st with queue := st.queue.erase qid }
    | none => st
  let st := match entryOpt with
    | some e => { st with ipQueueMap := aerase st.ipQueueMap e.clientIp }
    | none => st
  ({ st with
      entries := st.entries.filter (fun e => e.id ≠ qid),
      callbacks := st.callbacks.erase qid },
   true)

def getQueueLength (st : QueueState) : Nat := st.queue.length

/-- Model of `getEstimatedWaitTime`: `0` when a warm container exists, otherwise
`Math.ceil((queueLength / 3) * avgDuration)`. -/
def getEstimatedWaitTime (st : QueueState) (sv : SvcState) (ps : PoolState) : ℤ :=
  let avgDuration := getAvgSessionDuration sv
  let queueLength := getQueueLength st
  let warmContainers := getWarmCount ps
  if warmContainers > 0 then 0
  else Int.ceil (((queueLength : ℚ) / 3) * avgDuration)

/-- Queue status callbacks fired through `notifyUpdate` (delivered only
when a callback is registered for the entry). -/
inductive QNotify where
  | statusUpdate (qid : String) (status : QueueStatus)
deriving DecidableEq, Repr

def notifyUpdate (st : QueueState) (e : QueueEntry) : List QNotify :=
  if e.id ∈ st.callbacks then [.statusUpdate e.id e.status] else []

/-- Model of `drainQueue`: mark every queued entry `rate_limited`, fire its
callback, purge all registries.  Returns the count of drained entries. -/
def drainQueue (st : QueueState) : QueueState × Nat × List QNotify :=
  let count := st.queue.length
  let step := fun (acc : QueueState × List QNotify) (qid : String) =>
    match findEntry acc.1 qid with
    | none => acc
    | some e =>
      let e2 := { e with status := QueueStatus.rate_limited }
      let st := setEntry acc.1 e2
      let evs := acc.2 ++ notifyUpdate st e2
      let st := { st with
        ipQueueMap := aerase st.ipQueueMap e.clientIp,
        entries := st.entries.filter (fun t => t.id ≠ qid),
        callbacks := st.callbacks.erase qid }
      (st, evs)
  let (st2, evs) := st.queue.foldl step (st, [])
  ({ st2 with queue := [] }, count, evs)

/-- The first `waiting` entry object found in the queue array. -/
def firstWaiting (st : QueueState) : Option QueueEntry :=
  st.queue.findSome? (fun qid =>
    match findEntry st qid with
    | some e => if e.status = .waiting then some e else none
    | none => none)

/-- One run of the background worker `processQueue`, with the fresh
uuids (`acqId`, `newSid`) it may consume via `createSession`. -/
def processQueue (st : QueueState) (sv : SvcState) (ps : PoolState)
    (acqId newSid : String) (now : Nat) (today : String) (encode : String → String) :
    QueueState × SvcState × PoolState × List QNotify :=
  if st.queue.length = 0 then (st, sv, ps, [])
  else if getWarmCount ps = 0 then (st, sv, ps, [])
  else
    match firstWaiting st with
    | none => (st, sv, ps, [])
    | some entry =>
      let st := updatePositions { st with queue := st.queue.erase entry.id }
      let (sv, rateLimit) := checkRateLimit sv entry.clientIp today
      if !rateLimit.allowed then
        let e2 := { entry with status := .rate_limited }
        let st := setEntry st e2
        let evs := notifyUpdate st e2
        let st := { st with
          ipQueueMap := aerase st.ipQueueMap entry.clientIp,
          entries := st.entries.filter (fun e => e.id ≠ entry.id),
          callbacks := st.callbacks.erase entry.id }
        (st, sv, ps, evs)
      else
        let e2 := { entry with status := .preparing }
        let st := setEntry st e2
        let evs1 := notifyUpdate st e2
        let e3 := { e2 with status := .connecting }
        let st := setEntry st e3
        let evs2 := notifyUpdate st e3
        match svcCreateSession sv ps entry.url entry.clientIp acqId newSid now today encode with
        | (sv, ps, .session sess, _) =>
          let e4 := { e3 with status := .ready, sessionId := some sess.id, port := some sess.port }
          let st := setEntry st e4
          (st, sv, ps, evs1 ++ evs2 ++ notifyUpdate st e4)
        | (sv, ps, .error _, _) =>
          let st := { st with entries := st.entries.filter (fun e => e.id ≠ entry.id) }
          (st, sv, ps, evs1 ++ evs2)
        | (sv, ps, .queued, _) =>
          let e4 := { e3 with status := .waiting }
          let st := setEntry st e4
          let st := updatePositions { st with queue := entry.id :: st.queue }
          (st, sv, ps, evs1 ++ evs2 ++ notifyUpdate st e4)

/-! ### HTTP controllers -/

inductive HttpResult where
  | badRequest (message : String)
  | serviceUnavailable
  | tooManyRequests
  | notFound
  | accepted (queueId : String) (position : Nat)
  | success
deriving DecidableEq, Repr

/-- Model of `SessionController.createSession` (`POST /api/session`), the variant
that always queues and defers the rate-limit check to queue processing.
`url` is `none` when the body has no `url` field; the empty string is
falsy in the `!dto.url` guard. -/
def postSession (sv : SvcState) (st : QueueState) (url : Option String)
    (clientIp newId : String) (now : Nat) : QueueState × HttpResult :=
  match url with
  | none => (st, .badRequest "URL is required")
  | some u =>
    if u = "" then (st, .badRequest "URL is required")
    else if sv.paused then (st, .serviceUnavailable)
    else
      let (st2, entry) := addToQueue st u clientIp newId now
      (st2, .accepted entry.id entry.position)

/-- Model of `SessionController.endSession` (`DELETE /api/session/:id`): end with
reason `user_ended`; 404 when `endSession` returned false. -/
def deleteSessionHttp (sv : SvcState) (sid : String) (now : Nat) :
    SvcState × HttpResult × List SvcEffect :=
  let (sv2, ok, eff) := endSession sv sid "user_ended" now
  (sv2, if ok then .success else .notFound, eff)

/-- Model of `QueueController.leaveQueue` (`DELETE /api/queue/:id`): 404 when
`removeFromQueue` returned false. -/
def leaveQueue (st : QueueState) (qid : String) : QueueState × HttpResult :=
  let (st2, success) := removeFromQueue st qid
  (st2, if success then .success else .notFound)

/-- Model of `AdminController.killSession` (`DELETE /api/admin/sessions/:id`):
end with reason `admin_killed`; always replies with the boolean. -/
def adminKillSession (sv : SvcState) (sid : String) (now : Nat) :
    SvcState × Bool × List SvcEffect :=
  let (sv2, ok, eff) := endSession sv sid "admin_killed" now
  (sv2, ok, eff)

/-! ### Realtime channel (`SessionGateway`, viewer/grace variant) -/

/-- Websocket messages emitted to individual clients. -/
inductive WsEvent where
  | joined (client sessionId : String) (isPrimary isViewer : Bool) (timeRemaining : Nat)
  | takeover (client : String)
  | timer (client : String) (timeRemaining : Nat)
  | warning (client : String) (secondsLeft : Nat)
  | ended (client reason : String)
  | errored (client : String)
  | viewerCount (client : String) (count : Nat)
deriving DecidableEq, Repr

/-- Model of `SessionGateway` state.  `connectedSockets` models the socket.io
registry `server.sockets.sockets` (emission to an absent socket is
silently dropped in the source); `reconnecting` is the
`reconnectingSessions` map (session id ↦ `disconnectedAt`), each entry
standing for a pending 35s abandonment timer. -/
structure GatewayState where
  clientSessions : List (String × String)
  sessionClients : List (String × List String)
  sessionPrimary : List (String × String)
  sessionViewers : List (String × List String)
  clientIsViewer : List (String × Bool)
  reconnecting : List (String × Nat)
  connectedSockets : List String
deriving DecidableEq, Repr

def emptyGateway : GatewayState :=
  { clientSessions := [], sessionClients := [], sessionPrimary := [],
    sessionViewers := [], clientIsViewer := [], reconnecting := [],
    connectedSockets := [] }

/-- Model of `reconnectingSessions` grace period in milliseconds. -/
def graceMs : Nat := 35000

/-- Model of `emitViewerCount`: send the viewer count to the session's current
primary, when one exists and its socket is still connected. -/
def emitViewerCount (g : GatewayState) (sid : String) : List WsEvent :=
  let count := ((alookup g.sessionViewers sid).getD []).length
  match alookup g.sessionPrimary sid with
  | some primaryId =>
    if primaryId ∈ g.connectedSockets then [.viewerCount primaryId count] else []
  | none => []

/-- Model of `handleJoinSession` (also the body of `session:reconnect`). -/
def handleJoinSession (sv : SvcState) (g : GatewayState) (client sid : String)
    (viewer : Bool) (now : Nat) : GatewayState × List WsEvent :=
  match getSession sv sid with
  | none => (g, [.errored client])
  | some sess =>
    if sess.status ≠ .active then (g, [.errored client])
    else
      let g := { g with clientSessions := aupsert g.clientSessions client sid }
      let cs := (alookup g.sessionClients sid).getD []
      let cs2 := if client ∈ cs then cs else cs ++ [client]
      let g := { g with sessionClients := aupsert g.sessionClients sid cs2 }
      let g := { g with reconnecting := aerase g.reconnecting sid }
      if viewer then
        let g := { g with clientIsViewer := aupsert g.clientIsViewer client true }
        let vs := (alookup g.sessionViewers sid).getD []
        let vs2 := if client ∈ vs then vs else vs ++ [client]
        let g := { g with sessionViewers := aupsert g.sessionViewers sid vs2 }
        (g, [.joined client sid false true (getSessionTimeRemaining sv sid now)] ++
            emitViewerCount g sid)
      else
        let takeoverEvs :=
          match alookup g.sessionPrimary sid with
          | some currentPrimary =>
            if currentPrimary ≠ client ∧ currentPrimary ∈ g.connectedSockets then
              [WsEvent.takeover currentPrimary]
            else []
          | none => []
        let g := { g with sessionPrimary := aupsert g.sessionPrimary sid client }
        (g, takeoverEvs ++
            [.joined client sid true false (getSessionTimeRemaining sv sid now)] ++
            emitViewerCount g sid)

/-- Model of `handleDisconnect`.  The disconnected socket has already left the
socket.io registry, so it is dropped from `connectedSockets` first.
When the last client of a session leaves, any stale grace timer is
cancelled and a fresh 35s abandonment timer is recorded. -/
def handleDisconnect (g : GatewayState) (client : String) (now : Nat) :
    GatewayState × List WsEvent :=
  let g := { g with connectedSockets := g.connectedSockets.erase client }
  match alookup g.clientSessions client with
  | none => (g, [])
  | some sid =>
    let g := { g with clientSessions := aerase g.clientSessions client }
    let isViewer := (alookup g.clientIsViewer client).getD false
    let g := { g with clientIsViewer := aerase g.clientIsViewer client }
    let (g, evs) :=
      if isViewer then
        let g :=
          match alookup g.sessionViewers sid with
          | some viewers =>
            let viewers2 := viewers.erase client
            if viewers2.isEmpty then { g with sessionViewers := aerase g.sessionViewers sid }
            else { g with sessionViewers := aupsert g.sessionViewers sid viewers2 }
          | none => g
        (g, emitViewerCount g sid)
      else (g, ([] : List WsEvent))
    match alookup g.sessionClients sid with
    | none => (g, evs)
    | some clients =>
      let clients2 := clients.erase client
      let g :=
        if alookup g.sessionPrimary sid = some client then
          { g with sessionPrimary := aerase g.sessionPrimary sid }
        else g
      if clients2.isEmpty then
        let g := { g with sessionClients := aerase g.sessionClients sid }
        let g := { g with reconnecting := aupsert g.reconnecting sid now }
        (g, evs)
      else
        ({ g with sessionClients := aupsert g.sessionClients sid clients2 }, evs)

/-- Model of `checkSessionAbandoned`: the grace-timer callback.  Ends the session
with reason `abandoned` only when it still has no clients and is still
active; otherwise only cleans up the reconnecting record. -/
def checkSessionAbandoned (sv : SvcState) (g : GatewayState) (sid : String) (now : Nat) :
    SvcState × GatewayState × List SvcEffect :=
  let clients := (alookup g.sessionClients sid).getD []
  if clients.isEmpty then
    let g := { g with reconnecting := aerase g.reconnecting sid }
    match getSession sv sid with
    | some sess =>
      if sess.status = .active then
        let (sv2, _, eff) := endSession sv sid "abandoned" now
        (sv2, g, eff)
      else (sv, g, [])
    | none => (sv, g, [])
  else
    (sv, { g with reconnecting := aerase g.reconnecting sid }, [])

/-- One session's slice of `broadcastTimerUpdates`. -/
def broadcastOne (sv : SvcState) (now : Nat) (acc : GatewayState × List WsEvent)
    (entry : String × List String) : GatewayState × List WsEvent :=
  let (g, evs) := acc
  let sid := entry.1
  let clients := entry.2
  let timeRemaining := getSessionTimeRemaining sv sid now
  let isActive : Bool := match getSession sv sid with
    | some sess => sess.status = SessionStatus.active
    | none => false
  if isActive then
    let tick := clients.foldl (fun out c =>
      if c ∈ g.connectedSockets then
        out ++ [WsEvent.timer c timeRemaining] ++
          (if timeRemaining = 30 then [WsEvent.warning c 30] else [])
      else out) []
    (g, evs ++ tick)
  else
    let endEvs := clients.foldl (fun out c =>
      if c ∈ g.connectedSockets then out ++ [WsEvent.ended c "expired"] else out) []
    let g := { g with
      clientIsViewer := g.clientIsViewer.filter (fun p => p.1 ∉ clients),
      sessionClients := aerase g.sessionClients sid,
      sessionViewers := aerase g.sessionViewers sid }
    (g, evs ++ endEvs)

/-- Model of `broadcastTimerUpdates` (the 1s interval): iterate over a snapshot
of `sessionClients`, emitting timer ticks for active sessions and
`session:ended` with reason `expired` for sessions that are gone. -/
def broadcastTimerUpdates (sv : SvcState) (g : GatewayState) (now : Nat) :
    GatewayState × List WsEvent :=
  g.sessionClients.foldl (broadcastOne sv now) (g, [])

/-- Model of `notifySessionEnded`: emit `session:ended` with the given reason to
every client bound to the session (defined in the source, but never
invoked by any caller in the repository). -/
def notifySessionEnded (g : GatewayState) (sid reason : String) : List WsEvent :=
  match alookup g.sessionClients sid with
  | some clients =>
    clients.foldl (fun out c =>
      if c ∈ g.connectedSockets then out ++ [WsEvent.ended c reason] else out) []
  | none => []

/-! ### Invariants and specification-side definitions -/

/-- The pool invariant as the claim states it: `sessionId` is set iff the
container is `active`.  (Refuted below: `releaseContainer` leaves the
session id on the `destroying` container.) -/
def specPoolInvIff (ps : PoolState) : Prop :=
  ∀ c ∈ ps.pool, c.sessionId.isSome = true ↔ c.status = ContainerStatus.active

/-- The invariant the pool actually maintains: `active` containers carry
a session id, and a container carrying a session id is `active` or
`destroying` (the latter only transiently, between the two halves of
`releaseContainer`). -/
def poolInv (ps : PoolState) : Prop :=
  ∀ c ∈ ps.pool,
    (c.status = ContainerStatus.active → c.sessionId.isSome = true) ∧
    (c.sessionId.isSome = true →
      c.status = ContainerStatus.active ∨ c.status = ContainerStatus.destroying)

/-- Modelled from the spec claim wording for the estimated wait: the
ceiling taken of `length / 3` BEFORE multiplying by the rolling-average
duration (the source instead ceils the product). -/
def specEstimatedWait (st : QueueState) (sv : SvcState) (ps : PoolState) : ℚ :=
  if getWarmCount ps > 0 then 0
  else ((Int.ceil ((getQueueLength st : ℚ) / 3) : ℤ) : ℚ) * getAvgSessionDuration sv

/-! ### Concrete executions used by counterexamples and witnesses -/

/-- Identity stand-in for `encodeURIComponent` in concrete runs. -/
def idEncode : String → String := fun s => s

/-- A pool holding one probe-verified warm container. -/
def demoPool : PoolState := containerReady (createWarmContainer emptyPool "c1" "docker1") "c1"

def demoCreate : SvcState × PoolState × CreateOutcome × List SvcEffect :=
  svcCreateSession initSvc demoPool "https://example.com" "10.0.0.5" "a1" "s1" 0 "day0" idEncode

/-- The session store right after the demo session `s1` started. -/
def demoSv : SvcState := demoCreate.1

/-- The pool right after the demo session `s1` started. -/
def demoPoolActive : PoolState := demoCreate.2.1

def demoSess : Session :=
  { id := "s1", poolId := "c1", port := 4000, url := "https://example.com",
    clientIp := "10.0.0.x", startedAt := 0, expiresAt := 300000, status := .active }

/-- The store after `s1` was ended once (reason `expired`). -/
def demoSvEnded : SvcState := (endSession demoSv "s1" "expired" 5000).1

def demoEndedSess : Session := { demoSess with status := .ended }

/-- The pool state in the middle of `releaseContainer`: the released
active container is still registered, now `destroying`, its `sessionId`
still set. -/
def demoPoolMid : PoolState := releaseContainerMark demoPoolActive "c1"

/-- Queue state with the single fresh entry `q1` from `10.0.0.5`. -/
def demoQueue : QueueState :=
  (addToQueue emptyQueue "https://example.com" "10.0.0.5" "q1" 0).1

/-- One worker run over `demoQueue` with a warm container available:
entry `q1` is promoted all the way to `ready`. -/
def demoProcessed : QueueState × SvcState × PoolState × List QNotify :=
  processQueue demoQueue initSvc demoPool "a1" "s1" 0 "day0" idEncode

/-- A gateway with the single connected controller `sock1` joined to the
demo session `s1`. -/
def demoGateway : GatewayState :=
  (handleJoinSession demoSv { emptyGateway with connectedSockets := ["sock1"] }
    "sock1" "s1" false 0).1

/-- A service state whose rolling window holds one 300s duration. -/
def demoSv300 : SvcState := { initSvc with sessionDurations := [300] }

/-! ### Helper lemmas -/

theorem alookup_nil {α : Type} (k : String) : alookup ([] : List (String × α)) k = none := rfl

theorem alookup_cons {α : Type} (p : String × α) (t : List (String × α)) (k : String) :
    alookup (p :: t) k = if p.1 = k then some p.2 else alookup t k := by
  by_cases h : p.1 = k <;> simp [alookup, List.find?_cons, h]

theorem alookup_aupsert_self {α : Type} (l : List (String × α)) (k : String) (v : α) :
    alookup (aupsert l k v) k = some v := by
  induction l with
  | nil => simp [aupsert, alookup_cons, alookup_nil]
  | cons p t ih =>
    by_cases h : p.1 = k
    · simp [aupsert, h, alookup_cons]
    · simp [aupsert, h, alookup_cons, ih]

theorem alookup_aerase_self {α : Type} (l : List (String × α)) (k : String) :
    alookup (aerase l k) k = none := by
  induction l with
  | nil => simp [aerase, alookup_nil]
  | cons p t ih =>
    by_cases hp : p.1 = k
    · simpa [aerase, List.filter_cons, hp] using ih
    · simpa [aerase, List.filter_cons, hp, alookup_cons] using ih

theorem mem_keys_aupsert {α : Type} (l : List (String × α)) (k x : String) (v : α)
    (h : x ∈ (aupsert l k v).map Prod.fst) : x = k ∨ x ∈ l.map Prod.fst := by
  induction l with
  | nil => simpa [aupsert] using h
  | cons p t ih =>
    by_cases hp : p.1 = k
    · rw [aupsert, if_pos hp] at h
      simp at h ⊢
      rcases h with h | h
      · exact Or.inl h
      · exact Or.inr (Or.inr h)
    · rw [aupsert, if_neg hp] at h
      simp at h ⊢
      rcases h with h | h
      · exact Or.inr (Or.inl h)
      · rcases ih (by simpa using h) with h2 | h2
        · exact Or.inl h2
        · exact Or.inr (Or.inr (by simpa using h2))

theorem aupsert_keys_nodup {α : Type} (l : List (String × α)) (k : String) (v : α)
    (h : (l.map Prod.fst).Nodup) : ((aupsert l k v).map Prod.fst).Nodup := by
  induction l with
  | nil => simp [aupsert]
  | cons p t ih =>
    rw [List.map_cons, List.nodup_cons] at h
    by_cases hp : p.1 = k
    · rw [aupsert, if_pos hp, List.map_cons, List.nodup_cons]
      exact ⟨hp ▸ h.1, h.2⟩
    · rw [aupsert, if_neg hp, List.map_cons, List.nodup_cons]
      refine ⟨fun hmem => ?_, ih h.2⟩
      rcases mem_keys_aupsert t k p.1 v hmem with h2 | h2
      · exact hp h2
      · exact h.1 h2

theorem foldl_emit_mem {β : Type} (conn : List String) (f : String → β) :
    ∀ (clients : List String) (init : List β) (x : β),
      (x ∈ clients.foldl (fun out c => if c ∈ conn then out ++ [f c] else out) init ↔
        x ∈ init ∨ ∃ c, c ∈ clients ∧ c ∈ conn ∧ x = f c) := by
  intro clients
  induction clients with
  | nil => intro init x; simp
  | cons c t ih =>
    intro init x
    by_cases hc : c ∈ conn
    · rw [List.foldl_cons, if_pos hc, ih]
      constructor
      · rintro (h | ⟨d, hd, hdc, rfl⟩)
        · rcases List.mem_append.mp h with h | h
          · exact Or.inl h
          · exact Or.inr ⟨c, List.mem_cons_self c t, hc, (List.mem_singleton.mp h)⟩
        · exact Or.inr ⟨d, List.mem_cons_of_mem c hd, hdc, rfl⟩
      · rintro (h | ⟨d, hd, hdc, rfl⟩)
        · exact Or.inl (List.mem_append.mpr (Or.inl h))
        · rcases List.mem_cons.mp hd with rfl | hd2
          · exact Or.inl (List.mem_append.mpr (Or.inr (List.mem_singleton.mpr rfl)))
          · exact Or.inr ⟨d, hd2, hdc, rfl⟩
    · rw [List.foldl_cons, if_neg hc, ih]
      constructor
      · rintro (h | ⟨d, hd, hdc, rfl⟩)
        · exact Or.inl h
        · exact Or.inr ⟨d, List.mem_cons_of_mem c hd, hdc, rfl⟩
      · rintro (h | ⟨d, hd, hdc, rfl⟩)
        · exact Or.inl h
        · rcases List.mem_cons.mp hd with rfl | hd2
          · exact absurd hdc hc
          · exact Or.inr ⟨d, hd2, hdc, rfl⟩

theorem findIdx?_eq_none_iff_all {α : Type} (p : α → Bool) (l : List α) :
    l.findIdx? p = none ↔ ∀ x ∈ l, p x = false := by
  induction l with
  | nil => simp
  | cons a t ih =>
    rw [List.findIdx?_cons]
    by_cases ha : p a = true <;> simp [ha, ih]

theorem find?_eq_none_iff_all {α : Type} (p : α → Bool) (l : List α) :
    l.find? p = none ↔ ∀ x ∈ l, p x = false := by
  induction l with
  | nil => simp
  | cons a t ih =>
    by_cases ha : p a = true <;> simp [List.find?_cons, ha, ih]

/-! ### Claim C1 -/

/-- Claim C1 as frozen is false: a `POST /api/session` whose url starts
with a blocked scheme is not answered 400 — it is accepted into the queue
and a queue entry is created. -/
theorem C1_counterexample :
    (postSession initSvc emptyQueue (some "file:///etc/passwd") "10.0.0.5" "q1" 0).2 =
      HttpResult.accepted "q1" 1 ∧
    (postSession initSvc emptyQueue (some "file:///etc/passwd") "10.0.0.5" "q1" 0).2 ≠
      HttpResult.badRequest "Blocked protocol: file:" ∧
    (postSession initSvc emptyQueue (some "file:///etc/passwd") "10.0.0.5" "q1" 0).1.entries.length
      = 1 := by
  refine ⟨by decide, by decide, by decide⟩

/-- Claim C1 (amended): the controller always queues a well-formed,
non-paused request regardless of scheme; the blocked-scheme rejection
happens later, inside `SessionService.createSession` during queue
processing, which returns `Blocked protocol: <scheme>` while leaving the
session store, the per-IP counters and the pool unchanged and firing no
effects. -/
theorem C1_blocked_protocol_deferred (sv : SvcState) (st : QueueState) (ps : PoolState)
    (url clientIp newId acqId newSid today : String) (now : Nat)
    (encode : String → String) (p : String) :
    (sv.paused = false → url ≠ "" →
      (postSession sv st (some url) clientIp newId now).2 =
        HttpResult.accepted (addToQueue st url clientIp newId now).2.id
          (addToQueue st url clientIp newId now).2.position ∧
      (postSession sv st (some url) clientIp newId now).1 =
        (addToQueue st url clientIp newId now).1) ∧
    (sv.lastResetDate = today → findBlockedProtocol url = some p →
      svcCreateSession sv ps url clientIp acqId newSid now today encode =
        (sv, ps, CreateOutcome.error ("Blocked protocol: " ++ p), [])) := by
  constructor
  · intro hpaused hurl
    simp only [postSession, if_neg hurl, hpaused, if_neg (Bool.false_ne_true)]
    exact ⟨trivial, trivial⟩
  · intro htoday hblocked
    have hreset : resetDailyStats sv today = sv := by
      simp [resetDailyStats, htoday]
    simp only [svcCreateSession, hreset, hblocked]

/-- Witness instantiating `C1_blocked_protocol_deferred` on the file:
scheme example of the spec. -/
theorem C1_blocked_protocol_deferred_witness :
    ((postSession initSvc emptyQueue (some "file:///etc/passwd") "10.0.0.5" "q1" 0).2 =
      HttpResult.accepted (addToQueue emptyQueue "file:///etc/passwd" "10.0.0.5" "q1" 0).2.id
        (addToQueue emptyQueue "file:///etc/passwd" "10.0.0.5" "q1" 0).2.position ∧
     (postSession initSvc emptyQueue (some "file:///etc/passwd") "10.0.0.5" "q1" 0).1 =
      (addToQueue emptyQueue "file:///etc/passwd" "10.0.0.5" "q1" 0).1) ∧
    svcCreateSession initSvc emptyPool "file:///etc/passwd" "10.0.0.5" "a1" "s1" 0 "day0" idEncode =
      (initSvc, emptyPool, CreateOutcome.error "Blocked protocol: file:", []) := by
  constructor
  · exact (C1_blocked_protocol_deferred initSvc emptyQueue emptyPool "file:///etc/passwd"
      "10.0.0.5" "q1" "a1" "s1" "day0" 0 idEncode "file:").1 rfl (by decide)
  · exact (C1_blocked_protocol_deferred initSvc emptyQueue emptyPool "file:///etc/passwd"
      "10.0.0.5" "q1" "a1" "s1" "day0" 0 idEncode "file:").2 rfl (by decide)

/-! ### Claim C10 -/

/-- The queue array after `removeFromQueue`: spliced when the id was
found, untouched otherwise. -/
theorem removeFromQueue_queue (st : QueueState) (qid : String) :
    (removeFromQueue st qid).1.queue =
      (match st.queue.findIdx? (fun q => q = qid) with
        | some _ => st.queue.erase qid
        | none => st.queue) := by
  rcases hidx : st.queue.findIdx? (fun q => q = qid) with _ | i <;>
    rcases hfind : findEntry st qid with _ | e <;>
      simp only [removeFromQueue, hidx, hfind, updatePositions]

/-- Every entry surviving `removeFromQueue` has a different id. -/
theorem removeFromQueue_entries_ne (st : QueueState) (qid : String) :
    ∀ e ∈ (removeFromQueue st qid).1.entries, e.id ≠ qid := by
  rcases hidx : st.queue.findIdx? (fun q => q = qid) with _ | i <;>
    rcases hfind : findEntry st qid with _ | e <;>
      · intro e2 he2
        simp only [removeFromQueue, hidx, hfind, updatePositions] at he2
        simpa using List.of_mem_filter he2

theorem removeFromQueue_callbacks (st : QueueState) (qid : String) :
    (removeFromQueue st qid).1.callbacks = st.callbacks.erase qid := by
  rcases hidx : st.queue.findIdx? (fun q => q = qid) with _ | i <;>
    rcases hfind : findEntry st qid with _ | e <;>
      simp only [removeFromQueue, hidx, hfind, updatePositions]

/-- Claim C10: `removeFromQueue` answers `true` for every id (so the 404
branch of `DELETE /queue/:id` is unreachable), and a repeated call with
the same id leaves the queue state unchanged. -/
theorem C10_removeFromQueue_total (st : QueueState) (qid : String)
    (hq : st.queue.Nodup) (hcb : st.callbacks.Nodup) :
    (removeFromQueue st qid).2 = true ∧
    (leaveQueue st qid).2 = HttpResult.success ∧
    removeFromQueue (removeFromQueue st qid).1 qid = ((removeFromQueue st qid).1, true) := by
  refine ⟨rfl, rfl, ?_⟩
  set st1 := (removeFromQueue st qid).1 with hst1
  have hqueue : qid ∉ st1.queue := by
    rw [hst1, removeFromQueue_queue]
    rcases hidx : st.queue.findIdx? (fun q => q = qid) with _ | i
    · have := (findIdx?_eq_none_iff_all (fun q => decide (q = qid)) st.queue).mp hidx
      intro hmem
      simpa using this qid hmem
    · intro hmem
      exact absurd rfl ((List.Nodup.mem_erase_iff hq).mp hmem).1
  have hentries := removeFromQueue_entries_ne st qid
  have hcallbacks : qid ∉ st1.callbacks := by
    rw [hst1, removeFromQueue_callbacks]
    intro hmem
    exact absurd rfl ((List.Nodup.mem_erase_iff hcb).mp hmem).1
  have hidx1 : st1.queue.findIdx? (fun q => q = qid) = none := by
    rw [findIdx?_eq_none_iff_all]
    intro x hx
    by_cases h : x = qid
    · exact absurd (h ▸ hx) hqueue
    · simpa using h
  have hfind1 : findEntry st1 qid = none := by
    rw [findEntry, find?_eq_none_iff_all]
    intro e he
    simpa using hentries e (hst1 ▸ he)
  have hfe : st1.entries.filter (fun e => e.id ≠ qid) = st1.entries := by
    rw [List.filter_eq_self]
    intro e he
    simpa using hentries e (hst1 ▸ he)
  have hce : st1.callbacks.erase qid = st1.callbacks :=
    List.erase_of_not_mem hcallbacks
  simp only [removeFromQueue, hidx1, hfind1, hfe, hce]

/-- Witness instantiating `C10_removeFromQueue_total` on a queue holding
one entry (and on an id that was never enqueued, via the second call). -/
theorem C10_removeFromQueue_total_witness :
    (removeFromQueue demoQueue "q1").2 = true ∧
    (leaveQueue demoQueue "q1").2 = HttpResult.success ∧
    removeFromQueue (removeFromQueue demoQueue "q1").1 "q1" =
      ((removeFromQueue demoQueue "q1").1, true) :=
  C10_removeFromQueue_total demoQueue "q1" (by decide) (by decide)

/-! ### Claim C2 -/

/-- Claim C2 as frozen is false: `endSession` on the already-ended demo
session returns `true` (not `false`), pushes a second value into the
rolling duration window, writes another end-log record and calls
`releaseContainer` again. -/
theorem C2_counterexample :
    getSession demoSvEnded "s1" = some demoEndedSess ∧
    demoSvEnded.sessionDurations.length = 1 ∧
    (endSession demoSvEnded "s1" "user_ended" 6000).2.1 = true ∧
    (endSession demoSvEnded "s1" "user_ended" 6000).1.sessionDurations.length = 2 ∧
    (endSession demoSvEnded "s1" "user_ended" 6000).2.2 =
      [SvcEffect.logEnd "s1" "user_ended", SvcEffect.releaseContainer "c1"] := by
  refine ⟨by decide, by decide, by decide, by decide, by decide⟩

/-- Claim C2 (amended): `endSession` returns `false` (and changes
nothing) only when the id is unknown; for any stored session — even one
already `ended` or `expired` — it returns `true`, re-marks it `ended`,
pushes another value into the rolling window, writes another end-log and
calls `releaseContainer` again. -/
theorem C2_endSession_behavior (sv : SvcState) (sid reason : String) (now : Nat) :
    (getSession sv sid = none → endSession sv sid reason now = (sv, false, [])) ∧
    (∀ sess, getSession sv sid = some sess →
      (endSession sv sid reason now).2.1 = true ∧
      (endSession sv sid reason now).2.2 =
        [SvcEffect.logEnd sid reason, SvcEffect.releaseContainer sess.poolId] ∧
      (endSession sv sid reason now).1.sessionDurations =
        pushDuration sv.sessionDurations (((now : ℚ) - (sess.startedAt : ℚ)) / 1000) ∧
      (endSession sv sid reason now).1.sessions =
        sv.sessions.map (fun s =>
          if s.id = sid then { s with status := SessionStatus.ended } else s)) := by
  constructor
  · intro h
    simp only [endSession, h]
  · intro sess h
    simp only [endSession, h]
    exact ⟨by trivial, by trivial, by trivial, by trivial⟩

/-- Witness instantiating `C2_endSession_behavior` on an unknown id and
on the twice-ended demo session. -/
theorem C2_endSession_behavior_witness :
    endSession initSvc "nosuch" "user_ended" 0 = (initSvc, false, []) ∧
    (endSession demoSvEnded "s1" "user_ended" 6000).2.1 = true := by
  constructor
  · exact (C2_endSession_behavior initSvc "nosuch" "user_ended" 0).1 (by decide)
  · exact ((C2_endSession_behavior demoSvEnded "s1" "user_ended" 6000).2
      demoEndedSess (by decide)).1

/-! ### Claim C3 -/

/-- Claim C3 as frozen is false: after `releaseContainer` marks the
active demo container `destroying`, the container is still in the pool
with its `sessionId` set, so `sessionId set iff status active` fails. -/
theorem C3_counterexample :
    demoPoolMid.pool =
      [ { id := "c1", containerId := "docker1", port := 4000,
          status := ContainerStatus.destroying, sessionId := some "a1" } ] ∧
    ¬ specPoolInvIff demoPoolMid := by
  constructor
  · decide
  · unfold specPoolInvIff
    decide

theorem poolInv_filter (ps : PoolState) (h : poolInv ps)
    (p : PooledContainer → Bool) (ports : List Nat) :
    poolInv { pool := ps.pool.filter p, usedPorts := ports } := by
  intro c hc
  exact h c (List.mem_of_mem_filter hc)

theorem poolInv_createWarmContainer (ps : PoolState) (h : poolInv ps)
    (id containerId : String) :
    poolInv (createWarmContainer ps id containerId) := by
  rcases hp : getAvailablePort ps with _ | port
  · simpa [createWarmContainer, hp] using h
  · intro c hc
    simp only [createWarmContainer, hp] at hc
    rcases List.mem_append.mp hc with hc2 | hc2
    · exact h c hc2
    · rcases List.mem_singleton.mp hc2 with rfl
      exact ⟨fun hcon => by simp at hcon, fun hcon => by simp at hcon⟩

theorem poolInv_containerReady (ps : PoolState) (h : poolInv ps) (pid : String) :
    poolInv (containerReady ps pid) := by
  intro c hc
  simp only [containerReady] at hc
  rcases List.mem_map.mp hc with ⟨d, hd, rfl⟩
  by_cases hcond : d.id = pid ∧ d.status = ContainerStatus.booting
  · rw [if_pos hcond]
    have hnone : d.sessionId.isSome = false := by
      rcases hss : d.sessionId.isSome
      · rfl
      · rcases (h d hd).2 hss with ha | ha <;>
          · rw [hcond.2] at ha
            exact absurd ha (by decide)
    exact ⟨fun hcon => by simp at hcon,
      fun hcon => absurd hcon (by simp [hnone])⟩
  · rw [if_neg hcond]
    exact h d hd

theorem acquireGo_inv (sid : String) (l : List PooledContainer)
    (h : ∀ c ∈ l,
      (c.status = ContainerStatus.active → c.sessionId.isSome = true) ∧
      (c.sessionId.isSome = true →
        c.status = ContainerStatus.active ∨ c.status = ContainerStatus.destroying)) :
    (∀ c ∈ (acquireGo sid l).1,
      (c.status = ContainerStatus.active → c.sessionId.isSome = true) ∧
      (c.sessionId.isSome = true →
        c.status = ContainerStatus.active ∨ c.status = ContainerStatus.destroying)) ∧
    (∀ c, (acquireGo sid l).2 = some c →
      c.status = ContainerStatus.active ∧ c.sessionId = some sid) := by
  induction l with
  | nil => exact ⟨by simp [acquireGo], by simp [acquireGo]⟩
  | cons c t ih =>
    have hht := fun d hd => h d (List.mem_cons_of_mem c hd)
    by_cases hw : c.status = ContainerStatus.warm
    · constructor
      · intro d hd
        simp only [acquireGo, if_pos hw] at hd
        rcases List.mem_cons.mp hd with rfl | hd2
        · exact ⟨fun _ => rfl, fun _ => Or.inl rfl⟩
        · exact hht d hd2
      · intro d hd
        simp only [acquireGo, if_pos hw] at hd
        injection hd with hd2
        subst hd2
        exact ⟨rfl, rfl⟩
    · rcases hgo : acquireGo sid t with ⟨t2, r⟩
      have ih2 := ih hht
      rw [hgo] at ih2
      constructor
      · intro d hd
        simp only [acquireGo, if_neg hw, hgo] at hd
        rcases List.mem_cons.mp hd with rfl | hd2
        · exact h d (List.mem_cons_self d t)
        · exact ih2.1 d hd2
      · intro d hd
        simp only [acquireGo, if_neg hw, hgo] at hd
        exact ih2.2 d hd

theorem poolInv_releaseContainerMark (ps : PoolState) (h : poolInv ps) (pid : String) :
    poolInv (releaseContainerMark ps pid) := by
  rcases hf : ps.pool.find? (fun c => c.id = pid) with _ | c0
  · simpa [releaseContainerMark, hf] using h
  · intro c hc
    simp only [releaseContainerMark, hf] at hc
    rcases List.mem_map.mp hc with ⟨d, hd, rfl⟩
    by_cases hid : d.id = pid
    · rw [if_pos hid]
      exact ⟨fun hcon => by simp at hcon, fun _ => Or.inr rfl⟩
    · rw [if_neg hid]
      exact h d hd

theorem poolInv_releaseContainerFinish (ps : PoolState) (h : poolInv ps) (pid : String) :
    poolInv (releaseContainerFinish ps pid) := by
  rcases hf : ps.pool.find? (fun c => c.id = pid) with _ | c0
  · simpa [releaseContainerFinish, hf] using h
  · simp only [releaseContainerFinish, hf]
    exact poolInv_filter ps h _ _

theorem poolInv_healthRemove (ps : PoolState) (h : poolInv ps) (pid : String) :
    poolInv (healthRemove ps pid) := by
  rcases hf : ps.pool.find? (fun c => c.id = pid) with _ | c0
  · simpa [healthRemove, hf] using h
  · by_cases hd : c0.status = ContainerStatus.destroying
    · simpa [healthRemove, hf, hd] using h
    · simp only [healthRemove, hf, if_neg hd]
      exact poolInv_filter ps h _ _

/-- Claim C3 (amended): every operation preserves the invariant that an
`active` container carries a `sessionId` and that a container carrying a
`sessionId` is `active` or `destroying`; a freshly acquired container is
`active` with the requested session id.  (The claimed iff fails during
the `destroying` window of a released container — see the
counterexample.) -/
theorem C3_pool_sessionId_invariant (ps : PoolState) (h : poolInv ps)
    (id containerId pid sid : String) :
    poolInv (createWarmContainer ps id containerId) ∧
    poolInv (containerReady ps pid) ∧
    poolInv (acquireContainer ps sid).1 ∧
    (∀ c, (acquireContainer ps sid).2 = some c →
      c.status = ContainerStatus.active ∧ c.sessionId = some sid) ∧
    poolInv (releaseContainerMark ps pid) ∧
    poolInv (releaseContainerFinish ps pid) ∧
    poolInv (releaseContainer ps pid) ∧
    poolInv (healthRemove ps pid) ∧
    poolInv (restartRemoveWarm ps) := by
  have hgo := acquireGo_inv sid ps.pool h
  refine ⟨poolInv_createWarmContainer ps h id containerId,
    poolInv_containerReady ps h pid, ?_, ?_, poolInv_releaseContainerMark ps h pid,
    poolInv_releaseContainerFinish ps h pid, ?_, poolInv_healthRemove ps h pid, ?_⟩
  · intro c hc
    rcases hpool : acquireGo sid ps.pool with ⟨pool2, r⟩
    simp only [acquireContainer, hpool] at hc
    rw [hpool] at hgo
    exact hgo.1 c hc
  · intro c hc
    rcases hpool : acquireGo sid ps.pool with ⟨pool2, r⟩
    simp only [acquireContainer, hpool] at hc
    rw [hpool] at hgo
    exact hgo.2 c hc
  · exact poolInv_releaseContainerFinish _ (poolInv_releaseContainerMark ps h pid) pid
  · intro c hc
    exact h c (List.mem_of_mem_filter hc)

/-- Witness instantiating `C3_pool_sessionId_invariant` on the
single-warm-container demo pool. -/
theorem C3_pool_sessionId_invariant_witness :
    poolInv (acquireContainer demoPool "sess1").1 ∧
    poolInv (releaseContainerMark demoPool "c1") := by
  have H := C3_pool_sessionId_invariant demoPool
    (by unfold poolInv; decide) "c9" "docker9" "c1" "sess1"
  exact ⟨H.2.2.1, H.2.2.2.2.1⟩

/-! ### Claim C7 -/

/-- Claim C7 as frozen is false: with one queued entry and a rolling
average of 300s, the source returns `ceil((1/3)·300) = 100`, not the
claimed `ceil(1/3)·300 = 300`. -/
theorem C7_counterexample :
    getEstimatedWaitTime demoQueue demoSv300 emptyPool = 100 ∧
    specEstimatedWait demoQueue demoSv300 emptyPool = 300 ∧
    ((getEstimatedWaitTime demoQueue demoSv300 emptyPool : ℚ) ≠
      specEstimatedWait demoQueue demoSv300 emptyPool) := by
  have hq : getQueueLength demoQueue = 1 := by decide
  have hw : getWarmCount emptyPool = 0 := by decide
  have havg : getAvgSessionDuration demoSv300 = 300 := by
    have hsd : demoSv300.sessionDurations = [300] := rfl
    rw [getAvgSessionDuration, hsd]
    norm_num
  have h1 : getEstimatedWaitTime demoQueue demoSv300 emptyPool = 100 := by
    simp only [getEstimatedWaitTime, hq, hw, havg]
    norm_num [Int.ceil_eq_iff]
  have h2 : specEstimatedWait demoQueue demoSv300 emptyPool = 300 := by
    simp only [specEstimatedWait, hq, hw, havg]
    norm_num [Int.ceil_eq_iff]
  refine ⟨h1, h2, ?_⟩
  rw [h1, h2]
  norm_num

/-- Claim C7 (amended): the estimated wait is 0 whenever a warm container
exists; otherwise it is `ceil((L/3)·avg)` — the ceiling of the product,
i.e. the least integer ≥ (L/3)·avg — where avg is the true mean of the
rolling window, or the configured duration when the window is empty. -/
theorem C7_estimated_wait (st : QueueState) (sv : SvcState) (ps : PoolState) :
    (0 < getWarmCount ps → getEstimatedWaitTime st sv ps = 0) ∧
    (getWarmCount ps = 0 →
      ((getQueueLength st : ℚ) / 3) * getAvgSessionDuration sv ≤
        (getEstimatedWaitTime st sv ps : ℚ) ∧
      ((getEstimatedWaitTime st sv ps : ℚ) <
        ((getQueueLength st : ℚ) / 3) * getAvgSessionDuration sv + 1)) ∧
    (sv.sessionDurations ≠ [] →
      getAvgSessionDuration sv * (sv.sessionDurations.length : ℚ) =
        sv.sessionDurations.sum) ∧
    (sv.sessionDurations = [] → getAvgSessionDuration sv = (sv.sessionDuration : ℚ)) := by
  refine ⟨?_, ?_, ?_, ?_⟩
  · intro h
    simp only [getEstimatedWaitTime, if_pos h]
  · intro h
    have hval : getEstimatedWaitTime st sv ps =
        Int.ceil (((getQueueLength st : ℚ) / 3) * getAvgSessionDuration sv) := by
      simp [getEstimatedWaitTime, h]
    rw [hval]
    exact ⟨Int.le_ceil _, Int.ceil_lt_add_one _⟩
  · intro h
    have hlen0 : sv.sessionDurations.length ≠ 0 :=
      Nat.pos_iff_ne_zero.mp (List.length_pos.mpr h)
    have hlen : (sv.sessionDurations.length : ℚ) ≠ 0 := Nat.cast_ne_zero.mpr hlen0
    have hne : sv.sessionDurations.isEmpty = false := by
      cases hsd : sv.sessionDurations with
      | nil => exact absurd hsd h
      | cons a t => rfl
    simp only [getAvgSessionDuration, hne, Bool.false_eq_true, if_false]
    field_simp
  · intro h
    simp [getAvgSessionDuration, h]

/-- Witness instantiating `C7_estimated_wait` with a warm pool and with
an empty pool. -/
theorem C7_estimated_wait_witness :
    getEstimatedWaitTime demoQueue demoSv300 demoPool = 0 ∧
    ((getQueueLength demoQueue : ℚ) / 3) * getAvgSessionDuration demoSv300 ≤
      (getEstimatedWaitTime demoQueue demoSv300 emptyPool : ℚ) := by
  constructor
  · exact (C7_estimated_wait demoQueue demoSv300 demoPool).1 (by decide)
  · exact ((C7_estimated_wait demoQueue demoSv300 emptyPool).2.1 (by decide)).1

/-! ### Claim C8 -/

/-- Claim C8 as frozen is false: after the worker promotes the demo
entry `q1` to `ready`, it is out of the queue array but `get` still
returns it with its stale position 1, not 0. -/
theorem C8_counterexample :
    (findEntry demoProcessed.1 "q1").map (fun e => e.status) = some QueueStatus.ready ∧
    "q1" ∉ demoProcessed.1.queue ∧
    (getQueueEntry demoProcessed.1 "q1").2.map (fun e => e.position) = some 1 ∧
    (getQueueEntry demoProcessed.1 "q1").2.map (fun e => e.position) ≠ some 0 := by
  refine ⟨by decide, by decide, by decide, by decide⟩

/-- Claim C8 (amended): `get` recomputes `position` as the current
1-based queue index only while the entry is `waiting`; an entry that has
left the waiting sequence (promoted to preparing/connecting/ready) is
returned unchanged, keeping its stale last position instead of 0. -/
theorem C8_position_accounting (st : QueueState) (qid : String) :
    (findEntry st qid = none → (getQueueEntry st qid).2 = none) ∧
    (∀ e, findEntry st qid = some e → e.status = QueueStatus.waiting → qid ∈ st.queue →
      ∃ i, st.queue.findIdx? (fun q => q = qid) = some i ∧
        (getQueueEntry st qid).2 = some { e with position := i + 1 }) ∧
    (∀ e, findEntry st qid = some e → e.status ≠ QueueStatus.waiting →
      getQueueEntry st qid = (st, some e)) := by
  refine ⟨?_, ?_, ?_⟩
  · intro h
    simp only [getQueueEntry, h]
  · intro e he hw hmem
    rcases hidx : st.queue.findIdx? (fun q => q = qid) with _ | i
    · exfalso
      have hall := (findIdx?_eq_none_iff_all (fun q => decide (q = qid)) st.queue).mp hidx qid hmem
      simp at hall
    · exact ⟨i, rfl, by simp only [getQueueEntry, he, if_pos hw, hidx]⟩
  · intro e he hw
    simp only [getQueueEntry, he, if_neg hw]

/-- Witness instantiating `C8_position_accounting` on the waiting demo
entry and on the promoted (ready) demo entry. -/
theorem C8_position_accounting_witness :
    (∃ i, demoQueue.queue.findIdx? (fun q => q = "q1") = some i ∧
      (getQueueEntry demoQueue "q1").2 =
        some { (addToQueue emptyQueue "https://example.com" "10.0.0.5" "q1" 0).2 with
                position := i + 1 }) ∧
    (getQueueEntry demoProcessed.1 "q1" = (demoProcessed.1,
      findEntry demoProcessed.1 "q1")) := by
  constructor
  · exact (C8_position_accounting demoQueue "q1").2.1
      (addToQueue emptyQueue "https://example.com" "10.0.0.5" "q1" 0).2
      (by decide) (by decide) (by decide)
  · have h := (C8_position_accounting demoProcessed.1 "q1").2.2
    rcases hf : findEntry demoProcessed.1 "q1" with _ | e
    · exact absurd hf (by decide)
    · refine h e hf ?_
      have hmap : (findEntry demoProcessed.1 "q1").map (fun x => x.status) =
          some QueueStatus.ready := by decide
      rw [hf] at hmap
      simp at hmap
      rw [hmap]
      decide

/-! ### Claim C9 -/

/-- Claim C9 as frozen is false: the admin kill runs `endSession` only —
no websocket event carries reason `admin_killed`; the bound client
instead receives `session:ended` with reason `expired` on the next timer
tick. -/
theorem C9_counterexample :
    (adminKillSession demoSv "s1" 10000).2.2 =
      [SvcEffect.logEnd "s1" "admin_killed", SvcEffect.releaseContainer "c1"] ∧
    (broadcastTimerUpdates (adminKillSession demoSv "s1" 10000).1 demoGateway 11000).2 =
      [WsEvent.ended "sock1" "expired"] ∧
    WsEvent.ended "sock1" "admin_killed" ∉
      (broadcastTimerUpdates (adminKillSession demoSv "s1" 10000).1 demoGateway 11000).2 := by
  refine ⟨by decide, by decide, by decide⟩

/-- Claim C9 (amended): `notifySessionEnded` would deliver
`session:ended{reason}` to exactly the connected clients bound to the
session, but neither the admin kill nor `DELETE /session/:id` invokes it:
both run only `endSession` (end-log plus container release), and bound
clients instead receive `session:ended` with reason `expired` from the
next `broadcastTimerUpdates` tick. -/
theorem C9_notifySessionEnded_unused (g : GatewayState) (sid reason : String)
    (clients : List String) (h : alookup g.sessionClients sid = some clients) :
    (∀ c, WsEvent.ended c reason ∈ notifySessionEnded g sid reason ↔
      c ∈ clients ∧ c ∈ g.connectedSockets) ∧
    (∀ sv now, adminKillSession sv sid now =
      ((endSession sv sid "admin_killed" now).1,
       (endSession sv sid "admin_killed" now).2.1,
       (endSession sv sid "admin_killed" now).2.2)) ∧
    (∀ sv now, (deleteSessionHttp sv sid now).1 = (endSession sv sid "user_ended" now).1 ∧
      (deleteSessionHttp sv sid now).2.2 = (endSession sv sid "user_ended" now).2.2) ∧
    (∀ sv now sess, getSession sv sid = some sess → sess.status ≠ SessionStatus.active →
      ∀ c ∈ clients, c ∈ g.connectedSockets →
        WsEvent.ended c "expired" ∈ (broadcastOne sv now (g, []) (sid, clients)).2) := by
  refine ⟨?_, fun sv now => rfl, fun sv now => ⟨rfl, rfl⟩, ?_⟩
  · intro c
    simp only [notifySessionEnded, h]
    rw [foldl_emit_mem g.connectedSockets (fun c => WsEvent.ended c reason) clients [] _]
    constructor
    · rintro (hmem | ⟨d, hd, hdc, heq⟩)
      · cases hmem
      · cases heq
        exact ⟨hd, hdc⟩
    · rintro ⟨hc, hconn⟩
      exact Or.inr ⟨c, hc, hconn, rfl⟩
  · intro sv now sess hsess hne c hc hconn
    have hdec : (match getSession sv sid with
        | some sess => decide (sess.status = SessionStatus.active)
        | none => false) = false := by
      rw [hsess]
      exact decide_eq_false hne
    simp only [broadcastOne, hdec, Bool.false_eq_true, if_false]
    rw [List.nil_append]
    rw [foldl_emit_mem g.connectedSockets (fun c => WsEvent.ended c "expired") clients [] _]
    exact Or.inr ⟨c, hc, hconn, rfl⟩

/-- Witness instantiating `C9_notifySessionEnded_unused` on the demo
gateway binding of `sock1` to session `s1`. -/
theorem C9_notifySessionEnded_unused_witness :
    (WsEvent.ended "sock1" "admin_killed" ∈
      notifySessionEnded demoGateway "s1" "admin_killed" ↔
      "sock1" ∈ ["sock1"] ∧ "sock1" ∈ demoGateway.connectedSockets) ∧
    WsEvent.ended "sock1" "expired" ∈
      (broadcastOne (adminKillSession demoSv "s1" 10000).1 11000
        (demoGateway, []) ("s1", ["sock1"])).2 := by
  constructor
  · exact (C9_notifySessionEnded_unused demoGateway "s1" "admin_killed" ["sock1"]
      (by decide)).1 "sock1"
  · exact (C9_notifySessionEnded_unused demoGateway "s1" "admin_killed" ["sock1"]
      (by decide)).2.2.2 (adminKillSession demoSv "s1" 10000).1 11000
      { demoSess with status := SessionStatus.ended } (by decide) (by decide)
      "sock1" (by decide) (by decide)

/-! ### Claim C4 -/

theorem endSession_some (sv : SvcState) (sid reason : String) (now : Nat) (sess : Session)
    (h : getSession sv sid = some sess) :
    endSession sv sid reason now =
      ({ sv with
          sessions := sv.sessions.map (fun s =>
            if s.id = sid then { s with status := SessionStatus.ended } else s),
          sessionDurations := pushDuration sv.sessionDurations
            (((now : ℚ) - (sess.startedAt : ℚ)) / 1000) },
       true,
       [SvcEffect.logEnd sid reason, SvcEffect.releaseContainer sess.poolId]) := by
  simp only [endSession, h]

/-- After a disconnect that removes the last client of a session, the
session sits in the reconnecting map with the disconnect time. -/
theorem handleDisconnect_starts_grace (g : GatewayState) (client sid : String) (now : Nat)
    (hcs : alookup g.clientSessions client = some sid)
    (hclients : alookup g.sessionClients sid = some [client]) :
    alookup (handleDisconnect g client now).1.reconnecting sid = some now := by
  simp only [handleDisconnect, hcs]
  cases hv : (alookup g.clientIsViewer client).getD false
  · simp only [hv, Bool.false_eq_true, if_false, hclients, List.erase_cons_head,
      List.isEmpty_nil, if_true]
    by_cases hp : alookup g.sessionPrimary sid = some client <;>
      simp [hp, alookup_aupsert_self]
  · simp only [hv, if_true]
    rcases hvs : alookup g.sessionViewers sid with _ | viewers
    · simp only [hvs, hclients, List.erase_cons_head, List.isEmpty_nil, if_true]
      by_cases hp : alookup g.sessionPrimary sid = some client <;>
        simp [hp, alookup_aupsert_self]
    · simp only [hvs]
      cases hve : (viewers.erase client).isEmpty <;>
        · simp only [hve, Bool.false_eq_true, if_false, if_true, hclients,
            List.erase_cons_head, List.isEmpty_nil]
          by_cases hp : alookup g.sessionPrimary sid = some client <;>
            simp [hp, alookup_aupsert_self]

/-- Claim C4: the abandonment protocol.  (a) when the last client of a
session disconnects the 35s grace record is created; (b) any successful
join for the session cancels it; (c) on expiry with still no clients and
an active session, `endSession(sid, "abandoned")` runs; (d) a session
that still has a client is never ended by the grace timer. -/
theorem C4_abandonment (sv : SvcState) (g : GatewayState) (client sid : String)
    (now later : Nat) :
    graceMs = 35000 ∧
    (alookup g.clientSessions client = some sid →
      alookup g.sessionClients sid = some [client] →
      alookup (handleDisconnect g client now).1.reconnecting sid = some now) ∧
    (∀ sess viewer, getSession sv sid = some sess → sess.status = SessionStatus.active →
      alookup (handleJoinSession sv g client sid viewer now).1.reconnecting sid = none) ∧
    ((alookup g.sessionClients sid).getD [] = [] →
      ∀ sess, getSession sv sid = some sess → sess.status = SessionStatus.active →
      checkSessionAbandoned sv g sid later =
        ((endSession sv sid "abandoned" later).1,
         { g with reconnecting := aerase g.reconnecting sid },
         [SvcEffect.logEnd sid "abandoned", SvcEffect.releaseContainer sess.poolId])) ∧
    ((alookup g.sessionClients sid).getD [] ≠ [] →
      (checkSessionAbandoned sv g sid later).1 = sv ∧
      (checkSessionAbandoned sv g sid later).2.2 = []) := by
  refine ⟨rfl, handleDisconnect_starts_grace g client sid now, ?_, ?_, ?_⟩
  · intro sess viewer hsess hactive
    simp only [handleJoinSession, hsess, hactive]
    cases viewer <;> simp [alookup_aerase_self]
  · intro hempty sess hsess hactive
    have hie : ((alookup g.sessionClients sid).getD []).isEmpty = true := by
      rw [hempty]; rfl
    simp only [checkSessionAbandoned, hie, if_true, hsess, hactive, if_pos rfl]
    rw [endSession_some sv sid "abandoned" later sess hsess]
  · intro hne
    have hie : ((alookup g.sessionClients sid).getD []).isEmpty = false := by
      cases hcl : (alookup g.sessionClients sid).getD []
      · exact absurd hcl hne
      · rfl
    simp only [checkSessionAbandoned, hie, Bool.false_eq_true, if_false]
    exact ⟨by trivial, by trivial⟩

/-- Witness instantiating `C4_abandonment`: `sock1` disconnects from the
demo session, the grace record appears; a rejoin cancels it; firing the
grace callback on the empty gateway ends `s1` with reason `abandoned`;
firing it while `sock1` is still connected changes nothing. -/
theorem C4_abandonment_witness :
    alookup (handleDisconnect demoGateway "sock1" 20000).1.reconnecting "s1" = some 20000 ∧
    alookup (handleJoinSession demoSv
        { demoGateway with reconnecting := [("s1", 20000)] }
        "sock2" "s1" false 21000).1.reconnecting "s1" = none ∧
    checkSessionAbandoned demoSv { emptyGateway with reconnecting := [("s1", 20000)] }
        "s1" 55000 =
      ((endSession demoSv "s1" "abandoned" 55000).1,
       { { emptyGateway with reconnecting := [("s1", 20000)] } with
          reconnecting := aerase [("s1", 20000)] "s1" },
       [SvcEffect.logEnd "s1" "abandoned", SvcEffect.releaseContainer "c1"]) ∧
    (checkSessionAbandoned demoSv demoGateway "s1" 55000).1 = demoSv ∧
    (checkSessionAbandoned demoSv demoGateway "s1" 55000).2.2 = [] := by
  refine ⟨?_, ?_, ?_, ?_, ?_⟩
  · exact (C4_abandonment demoSv demoGateway "sock1" "s1" 20000 0).2.1
      (by decide) (by decide)
  · exact (C4_abandonment demoSv { demoGateway with reconnecting := [("s1", 20000)] }
      "sock2" "s1" 21000 0).2.2.1 demoSess false (by decide) (by decide)
  · exact (C4_abandonment demoSv { emptyGateway with reconnecting := [("s1", 20000)] }
      "x" "s1" 0 55000).2.2.2.1 (by decide) demoSess (by decide) (by decide)
  · exact ((C4_abandonment demoSv demoGateway "x" "s1" 0 55000).2.2.2.2 (by decide)).1
  · exact ((C4_abandonment demoSv demoGateway "x" "s1" 0 55000).2.2.2.2 (by decide)).2

/-! ### Claim C5 -/

theorem emitViewerCount_no_takeover (g : GatewayState) (sid p : String) :
    WsEvent.takeover p ∉ emitViewerCount g sid := by
  unfold emitViewerCount
  rcases alookup g.sessionPrimary sid with _ | prim
  · simp
  · by_cases h : prim ∈ g.connectedSockets <;> simp [h]

/-- Claim C5: per-session primary uniqueness and takeover ordering: a
viewer join leaves the primary untouched and emits no takeover; a
controller join installs the joining client as the (single) primary, and
when a different connected client held the role, `session:takeover` to it
strictly precedes the new client's `session:joined`. -/
theorem C5_primary_takeover (sv : SvcState) (g : GatewayState) (client sid : String)
    (now : Nat) (sess : Session)
    (hsess : getSession sv sid = some sess) (hactive : sess.status = SessionStatus.active) :
    ((handleJoinSession sv g client sid true now).1.sessionPrimary = g.sessionPrimary ∧
     (∀ p, WsEvent.takeover p ∉ (handleJoinSession sv g client sid true now).2)) ∧
    alookup (handleJoinSession sv g client sid false now).1.sessionPrimary sid = some client ∧
    (∀ p, alookup g.sessionPrimary sid = some p → p ≠ client → p ∈ g.connectedSockets →
      ∃ rest, (handleJoinSession sv g client sid false now).2 =
        WsEvent.takeover p :: WsEvent.joined client sid true false
          (getSessionTimeRemaining sv sid now) :: rest) ∧
    ((g.sessionPrimary.map Prod.fst).Nodup →
      ((handleJoinSession sv g client sid false now).1.sessionPrimary.map Prod.fst).Nodup ∧
      ((handleJoinSession sv g client sid true now).1.sessionPrimary.map Prod.fst).Nodup) := by
  refine ⟨⟨?_, ?_⟩, ?_, ?_, ?_⟩
  · simp only [handleJoinSession, hsess, hactive]
    simp
  · intro p
    simp only [handleJoinSession, hsess, hactive]
    simp only [if_true]
    intro hmem
    rcases List.mem_append.mp hmem with h | h
    · simp at h
    · exact emitViewerCount_no_takeover _ sid p h
  · simp only [handleJoinSession, hsess, hactive]
    simp [alookup_aupsert_self]
  · intro p hp hne hconn
    simp only [handleJoinSession, hsess, hactive]
    simp only [Bool.false_eq_true, if_false]
    rw [hp]
    simp only [if_pos (And.intro hne hconn)]
    exact ⟨_, rfl⟩
  · intro hnodup
    constructor
    · simp only [handleJoinSession, hsess, hactive]
      simp only [Bool.false_eq_true, if_false]
      exact aupsert_keys_nodup _ sid client hnodup
    · simp only [handleJoinSession, hsess, hactive]
      simp [hnodup]

/-- Witness instantiating `C5_primary_takeover`: `sock2` takes over the
demo session from primary `sock1`; a viewer `sock3` join leaves the
primary untouched. -/
theorem C5_primary_takeover_witness :
    alookup (handleJoinSession demoSv demoGateway "sock2" "s1" false 0).1.sessionPrimary "s1" =
      some "sock2" ∧
    (∃ rest, (handleJoinSession demoSv demoGateway "sock2" "s1" false 0).2 =
      WsEvent.takeover "sock1" :: WsEvent.joined "sock2" "s1" true false
        (getSessionTimeRemaining demoSv "s1" 0) :: rest) ∧
    (handleJoinSession demoSv demoGateway "sock3" "s1" true 0).1.sessionPrimary =
      demoGateway.sessionPrimary := by
  refine ⟨?_, ?_, ?_⟩
  · exact (C5_primary_takeover demoSv demoGateway "sock2" "s1" 0 demoSess
      (by decide) (by decide)).2.1
  · exact (C5_primary_takeover demoSv demoGateway "sock2" "s1" 0 demoSess
      (by decide) (by decide)).2.2.1 "sock1" (by decide) (by decide) (by decide)
  · exact (C5_primary_takeover demoSv demoGateway "sock3" "s1" 0 demoSess
      (by decide) (by decide)).1.1

/-! ### Claim C6 -/

end Webtop
